import Mathlib

/-!
Shallow embedding of `src/src/pages/samples/texturedCube.ts` (a WebGPU
textured-cube sample) and verification of its specification.

Matrix and vector arithmetic follows the `gl-matrix` library (v3.x), the
library the source imports: matrices are 4×4, stored column-major as 16
scalars `e0 … e15` mirroring the array indices `out[0] … out[15]` of
`gl-matrix`.  Floating-point numbers are modelled by real numbers.
-/

noncomputable section

open Real

/-- A 3-component vector (`gl-matrix` `vec3`). -/
structure Vec3 where
  x : ℝ
  y : ℝ
  z : ℝ

/-- A 4-component vector (GLSL/WGSL `vec4`). -/
structure Vec4 where
  x : ℝ
  y : ℝ
  z : ℝ
  w : ℝ
deriving DecidableEq

/-- A 2-component vector (GLSL/WGSL `vec2`). -/
structure Vec2 where
  x : ℝ
  y : ℝ

/-- A 4×4 matrix stored column-major, fields `e0 … e15` mirroring the
`gl-matrix` array slots `m[0] … m[15]` (so `e0 e1 e2 e3` is the first
column). -/
@[ext]
structure Mat4 where
  e0 : ℝ
  e1 : ℝ
  e2 : ℝ
  e3 : ℝ
  e4 : ℝ
  e5 : ℝ
  e6 : ℝ
  e7 : ℝ
  e8 : ℝ
  e9 : ℝ
  e10 : ℝ
  e11 : ℝ
  e12 : ℝ
  e13 : ℝ
  e14 : ℝ
  e15 : ℝ

namespace Mat4

/-- `gl-matrix` `mat4.create()`: the identity matrix. -/
def create : Mat4 :=
  ⟨1, 0, 0, 0,  0, 1, 0, 0,  0, 0, 1, 0,  0, 0, 0, 1⟩

/-- `gl-matrix` `mat4.translate(out, a, v)`: post-multiplies `a` by a
translation; only the fourth column changes. -/
def translate (a : Mat4) (v : Vec3) : Mat4 :=
  { a with
    e12 := a.e0 * v.x + a.e4 * v.y + a.e8 * v.z + a.e12
    e13 := a.e1 * v.x + a.e5 * v.y + a.e9 * v.z + a.e13
    e14 := a.e2 * v.x + a.e6 * v.y + a.e10 * v.z + a.e14
    e15 := a.e3 * v.x + a.e7 * v.y + a.e11 * v.z + a.e15 }

/-- `gl-matrix` `EPSILON`. -/
def EPSILON : ℝ := 0.000001

/-- `gl-matrix` `mat4.rotate(out, a, rad, axis)`: post-multiplies `a` by a
rotation of `rad` radians about `axis`.  Returns `none` (the JS function
returns `null`, leaving `out` untouched) when the axis is shorter than
`EPSILON`; otherwise the axis is normalised first. -/
def rotate (a : Mat4) (rad : ℝ) (axis : Vec3) : Option Mat4 :=
  let len := Real.sqrt (axis.x * axis.x + axis.y * axis.y + axis.z * axis.z)
  if len < EPSILON then none else
  let x := axis.x * (1 / len)
  let y := axis.y * (1 / len)
  let z := axis.z * (1 / len)
  let s := Real.sin rad
  let c := Real.cos rad
  let t := 1 - c
  let b00 := x * x * t + c
  let b01 := y * x * t + z * s
  let b02 := z * x * t - y * s
  let b10 := x * y * t - z * s
  let b11 := y * y * t + c
  let b12 := z * y * t + x * s
  let b20 := x * z * t + y * s
  let b21 := y * z * t - x * s
  let b22 := z * z * t + c
  some
    { e0 := a.e0 * b00 + a.e4 * b01 + a.e8 * b02
      e1 := a.e1 * b00 + a.e5 * b01 + a.e9 * b02
      e2 := a.e2 * b00 + a.e6 * b01 + a.e10 * b02
      e3 := a.e3 * b00 + a.e7 * b01 + a.e11 * b02
      e4 := a.e0 * b10 + a.e4 * b11 + a.e8 * b12
      e5 := a.e1 * b10 + a.e5 * b11 + a.e9 * b12
      e6 := a.e2 * b10 + a.e6 * b11 + a.e10 * b12
      e7 := a.e3 * b10 + a.e7 * b11 + a.e11 * b12
      e8 := a.e0 * b20 + a.e4 * b21 + a.e8 * b22
      e9 := a.e1 * b20 + a.e5 * b21 + a.e9 * b22
      e10 := a.e2 * b20 + a.e6 * b21 + a.e10 * b22
      e11 := a.e3 * b20 + a.e7 * b21 + a.e11 * b22
      e12 := a.e12
      e13 := a.e13
      e14 := a.e14
      e15 := a.e15 }

/-- `gl-matrix` `mat4.multiply(out, a, b)`: `out = a * b` (column-major). -/
def multiply (a b : Mat4) : Mat4 :=
  { e0 := b.e0 * a.e0 + b.e1 * a.e4 + b.e2 * a.e8 + b.e3 * a.e12
    e1 := b.e0 * a.e1 + b.e1 * a.e5 + b.e2 * a.e9 + b.e3 * a.e13
    e2 := b.e0 * a.e2 + b.e1 * a.e6 + b.e2 * a.e10 + b.e3 * a.e14
    e3 := b.e0 * a.e3 + b.e1 * a.e7 + b.e2 * a.e11 + b.e3 * a.e15
    e4 := b.e4 * a.e0 + b.e5 * a.e4 + b.e6 * a.e8 + b.e7 * a.e12
    e5 := b.e4 * a.e1 + b.e5 * a.e5 + b.e6 * a.e9 + b.e7 * a.e13
    e6 := b.e4 * a.e2 + b.e5 * a.e6 + b.e6 * a.e10 + b.e7 * a.e14
    e7 := b.e4 * a.e3 + b.e5 * a.e7 + b.e6 * a.e11 + b.e7 * a.e15
    e8 := b.e8 * a.e0 + b.e9 * a.e4 + b.e10 * a.e8 + b.e11 * a.e12
    e9 := b.e8 * a.e1 + b.e9 * a.e5 + b.e10 * a.e9 + b.e11 * a.e13
    e10 := b.e8 * a.e2 + b.e9 * a.e6 + b.e10 * a.e10 + b.e11 * a.e14
    e11 := b.e8 * a.e3 + b.e9 * a.e7 + b.e10 * a.e11 + b.e11 * a.e15
    e12 := b.e12 * a.e0 + b.e13 * a.e4 + b.e14 * a.e8 + b.e15 * a.e12
    e13 := b.e12 * a.e1 + b.e13 * a.e5 + b.e14 * a.e9 + b.e15 * a.e13
    e14 := b.e12 * a.e2 + b.e13 * a.e6 + b.e14 * a.e10 + b.e15 * a.e14
    e15 := b.e12 * a.e3 + b.e13 * a.e7 + b.e14 * a.e11 + b.e15 * a.e15 }

/-- `gl-matrix` `mat4.perspective(out, fovy, aspect, near, far)` for a
finite `far` plane (the sample passes `far = 100.0`, so the
`far === Infinity` branch of the JS source is never taken). -/
def perspective (fovy aspect near far : ℝ) : Mat4 :=
  let f := 1 / Real.tan (fovy / 2)
  let nf := 1 / (near - far)
  { e0 := f / aspect, e1 := 0, e2 := 0, e3 := 0
    e4 := 0, e5 := f, e6 := 0, e7 := 0
    e8 := 0, e9 := 0, e10 := (far + near) * nf, e11 := -1
    e12 := 0, e13 := 0, e14 := 2 * far * near * nf, e15 := 0 }

end Mat4

/-- `vec3.fromValues(x, y, z)`. -/
def vec3fromValues (x y z : ℝ) : Vec3 := ⟨x, y, z⟩

/-- The first two statements of `getTransformationMatrix`: a fresh
identity (`mat4.create()`) translated by `(0, 0, -4)`. -/
def translatedIdentity : Mat4 :=
  Mat4.translate Mat4.create (vec3fromValues 0 0 (-4))

/-- The view matrix computed inside `getTransformationMatrix`:
`translatedIdentity` rotated by 1 radian about the axis
`(sin now, cos now, 0)` (`now = Date.now() / 1000`).  A `null` return
from `mat4.rotate` leaves the output untouched, matching the JS in-place
semantics. -/
def viewMatrixAt (now : ℝ) : Mat4 :=
  match Mat4.rotate translatedIdentity 1
      (vec3fromValues (Real.sin now) (Real.cos now) 0) with
  | some m => m
  | none => translatedIdentity

/-- `getTransformationMatrix` (lines 202–217): builds the view matrix for
the current time and returns `projectionMatrix * viewMatrix`
(`mat4.multiply(out, projectionMatrix, viewMatrix)`).  The wall-clock read
`Date.now() / 1000` is the explicit parameter `now`. -/
def getTransformationMatrix (projectionMatrix : Mat4) (now : ℝ) : Mat4 :=
  Mat4.multiply projectionMatrix (viewMatrixAt now)

/-! ## Shader semantics

The sample carries two textually different but semantically equal shader
pairs: `glslShaders` (lines 243–274) and `wgslShaders` (lines 276–312).
Each vertex `main` reads the uniform matrix, an input `position : vec4`
and `uv : vec2`, and writes a clip-space position, `fragUV` and
`fragPosition`; each fragment `main` samples the texture at `fragUV` and
multiplies componentwise by `fragPosition`.  Texture sampling is
abstracted as a function `Vec2 → Vec4` from UV coordinates to the sampled
RGBA colour, the same function for both dialects. -/

/-- Componentwise product of two `vec4`s (GLSL/WGSL `*` on vectors). -/
def Vec4.cmul (a b : Vec4) : Vec4 :=
  ⟨a.x * b.x, a.y * b.y, a.z * b.z, a.w * b.w⟩

/-- Componentwise sum of two `vec4`s. -/
def Vec4.add (a b : Vec4) : Vec4 :=
  ⟨a.x + b.x, a.y + b.y, a.z + b.z, a.w + b.w⟩

/-- Scalar times `vec4`. -/
def Vec4.smul (s : ℝ) (a : Vec4) : Vec4 :=
  ⟨s * a.x, s * a.y, s * a.z, s * a.w⟩

/-- GLSL `vec4(1.0)`: the splat constructor. -/
def vec4splat (s : ℝ) : Vec4 := ⟨s, s, s, s⟩

/-- Column-major matrix–vector product, the meaning of `m * v` for a
`mat4`/`mat4x4<f32>` in GLSL and WGSL. -/
def Mat4.mulVec (m : Mat4) (v : Vec4) : Vec4 :=
  ⟨m.e0 * v.x + m.e4 * v.y + m.e8 * v.z + m.e12 * v.w,
   m.e1 * v.x + m.e5 * v.y + m.e9 * v.z + m.e13 * v.w,
   m.e2 * v.x + m.e6 * v.y + m.e10 * v.z + m.e14 * v.w,
   m.e3 * v.x + m.e7 * v.y + m.e11 * v.z + m.e15 * v.w⟩

/-- Outputs of a vertex-shader invocation: the clip-space position
(`gl_Position` / `[[builtin(position)]] Position`) and the two
interpolated outputs at locations 0 and 1. -/
structure VertexOutput where
  position : Vec4
  fragUV : Vec2
  fragPosition : Vec4

/-- The GLSL vertex `main` (lines 255–259):
`fragPosition = 0.5 * (position + vec4(1.0))`,
`gl_Position = uniforms.modelViewProjectionMatrix * position`,
`fragUV = uv`. -/
def glslVertexMain (modelViewProjectionMatrix : Mat4)
    (position : Vec4) (uv : Vec2) : VertexOutput :=
  { fragPosition := Vec4.smul 0.5 (Vec4.add position (vec4splat 1.0))
    position := Mat4.mulVec modelViewProjectionMatrix position
    fragUV := uv }

/-- The GLSL fragment `main` (lines 270–272):
`outColor = texture(sampler2D(myTexture, mySampler), fragUV) * fragPosition`.
`sample` abstracts sampling `myTexture` through `mySampler`. -/
def glslFragmentMain (sample : Vec2 → Vec4)
    (fragUV : Vec2) (fragPosition : Vec4) : Vec4 :=
  Vec4.cmul (sample fragUV) fragPosition

/-- The WGSL vertex `main` (lines 290–296):
`fragPosition = 0.5 * (position + vec4<f32>(1.0, 1.0, 1.0, 1.0))`,
`Position = uniforms.modelViewProjectionMatrix * position`,
`fragUV = uv`. -/
def wgslVertexMain (modelViewProjectionMatrix : Mat4)
    (position : Vec4) (uv : Vec2) : VertexOutput :=
  { fragPosition := Vec4.smul 0.5 (Vec4.add position (Vec4.mk 1.0 1.0 1.0 1.0))
    position := Mat4.mulVec modelViewProjectionMatrix position
    fragUV := uv }

/-- The WGSL fragment `main` (lines 306–310):
`outColor = textureSample(myTexture, mySampler, fragUV) * fragPosition`. -/
def wgslFragmentMain (sample : Vec2 → Vec4)
    (fragUV : Vec2) (fragPosition : Vec4) : Vec4 :=
  Vec4.cmul (sample fragUV) fragPosition

/-! ## Geometry constants

`texturedCube.ts` imports `cubeVertexArray`, `cubeVertexSize`,
`cubeUVOffset` and `cubePositionOffset` from `src/meshes/cube.ts`, a file
of this repository that is not included in the sources at hand.  They are
modelled from the specification. -/

/-- Modelled from the spec: `src/meshes/cube.ts` is missing; the spec says
the vertex stride is one position (4×float32) plus one UV (2×float32)
= 24 bytes. -/
def cubeVertexSize : Nat := 4 * 4 + 2 * 4

/-- Modelled from the spec: `src/meshes/cube.ts` is missing; in the
interleaved position-then-UV layout the position starts each vertex, at
byte offset 0. -/
def cubePositionOffset : Nat := 0

/-- Modelled from the spec: `src/meshes/cube.ts` is missing; in the
interleaved position-then-UV layout the UV follows the 4×float32
position, at byte offset 16. -/
def cubeUVOffset : Nat := 4 * 4

/-- Modelled from the spec: `src/meshes/cube.ts` is missing; the cube is
36 unindexed vertices. -/
def cubeVertexCount : Nat := 36

/-- Modelled from the spec: `src/meshes/cube.ts` is missing;
`cubeVertexArray.byteLength` for 36 interleaved vertices of
`cubeVertexSize` bytes each. -/
def cubeVertexArrayByteLength : Nat := cubeVertexCount * cubeVertexSize

/-! ## WebGPU descriptor and state model

Enumerations mirror the WebGPU string enums the source uses; handles to
GPU objects are natural numbers, assigned in creation order during
`init`. -/

/-- WebGPU store operation (`'store'` / `'clear'`). -/
inductive StoreOp where
  | store
  | clear
deriving DecidableEq

/-- WebGPU primitive topology. -/
inductive Topology where
  | pointList
  | lineList
  | lineStrip
  | triangleList
  | triangleStrip
deriving DecidableEq

/-- WebGPU cull mode. -/
inductive CullMode where
  | noCulling
  | front
  | back
deriving DecidableEq

/-- WebGPU depth/stencil compare function (the ones relevant here). -/
inductive CompareFunction where
  | never
  | less
  | equal
  | lessEqual
  | greater
  | always
deriving DecidableEq

/-- WebGPU vertex formats used by the pipeline. -/
inductive VertexFormat where
  | float32x2
  | float32x3
  | float32x4
deriving DecidableEq

/-- One entry of `pipeline.vertex.buffers[0].attributes`. -/
structure VertexAttribute where
  shaderLocation : Nat
  offset : Nat
  format : VertexFormat
deriving DecidableEq

/-- One entry of `pipeline.vertex.buffers`. -/
structure VertexBufferLayout where
  arrayStride : Nat
  attributes : List VertexAttribute
deriving DecidableEq

/-- The fixed-function state of the render pipeline created at lines
68–126: the vertex-buffer layout, the primitive state and the
depth-stencil state. -/
structure PipelineState where
  vertexBuffers : List VertexBufferLayout
  topology : Topology
  cullMode : CullMode
  depthWriteEnabled : Bool
  depthCompare : CompareFunction
deriving DecidableEq

/-- The pipeline descriptor of `device.createRenderPipeline` (lines
68–126); the `useWGSL` flag selects only which shader modules are
attached, not any fixed-function state. -/
def pipelineState : PipelineState :=
  { vertexBuffers :=
      [{ arrayStride := cubeVertexSize
         attributes :=
           [{ shaderLocation := 0, offset := cubePositionOffset
              format := .float32x4 },
            { shaderLocation := 1, offset := cubeUVOffset
              format := .float32x2 }] }]
    topology := .triangleList
    cullMode := .back
    depthWriteEnabled := true
    depthCompare := .less }

/-- RGBA clear colour (`loadValue: \x7b r, g, b, a \x7d`). -/
structure GPUColor where
  r : ℝ
  g : ℝ
  b : ℝ
  a : ℝ

/-- `renderPassDescriptor.colorAttachments[0]`: the attachment is
`undefined` (`none`) until a frame assigns the swap-chain view.  The
descriptor at lines 135–141 omits `storeOp`, so the attachment carries
the WebGPU default `storeOp: 'store'`. -/
structure ColorAttachment where
  attachment : Option Nat
  loadValue : GPUColor
  storeOp : StoreOp

/-- `renderPassDescriptor.depthStencilAttachment`. -/
structure DepthStencilAttachment where
  attachment : Nat
  depthLoadValue : ℝ
  depthStoreOp : StoreOp
  stencilLoadValue : Nat
  stencilStoreOp : StoreOp

/-- The mutable render-pass descriptor built at lines 134–150. -/
structure RenderPassDescriptor where
  colorAttachment : ColorAttachment
  depthStencilAttachment : DepthStencilAttachment

/-- The kinds of GPU-side objects the sample creates. -/
inductive GPUObjectKind where
  | buffer
  | bindGroupLayout
  | pipelineLayout
  | shaderModule
  | renderPipeline
  | texture
  | textureView
  | sampler
  | bindGroup
  | commandEncoder
deriving DecidableEq

/-- `const uniformBufferSize = 4 * 16; // 4x4 matrix` (line 152). -/
def uniformBufferSize : Nat := 4 * 16

/-- Size argument of `device.createBuffer` for the vertex buffer
(line 28): `cubeVertexArray.byteLength`. -/
def verticesBufferSize : Nat := cubeVertexArrayByteLength

/-- Handles assigned in creation order during `init`:
0 `verticesBuffer`, 1 `bindGroupLayout`, 2 `pipelineLayout`,
3/4 the two shader modules, 5 `pipeline`, 6 `depthTexture`,
7 `depthTexture.createView()`, 8 `uniformBuffer`, 9 `cubeTexture`,
10 `sampler`, 11 `cubeTexture.createView()`, 12 `uniformBindGroup`. -/
def initCreatedObjects : List GPUObjectKind :=
  [.buffer, .bindGroupLayout, .pipelineLayout, .shaderModule, .shaderModule,
   .renderPipeline, .texture, .textureView, .buffer, .texture, .sampler,
   .textureView, .bindGroup]

/-- Everything the closure returned by `init` captures and a frame can
observe or mutate.  `uniformContents` models the contents of the 64-byte
uniform buffer (zero until first written). -/
structure RendererState where
  aspect : ℝ
  projectionMatrix : Mat4
  verticesBuffer : Nat
  pipeline : Nat
  depthTexture : Nat
  uniformBuffer : Nat
  cubeTexture : Nat
  sampler : Nat
  uniformBindGroup : Nat
  renderPassDescriptor : RenderPassDescriptor
  uniformContents : Mat4

/-- The all-zero matrix: a freshly created WebGPU buffer is
zero-initialised. -/
def Mat4.zero : Mat4 := ⟨0, 0, 0, 0, 0, 0, 0, 0, 0, 0, 0, 0, 0, 0, 0, 0⟩

/-- The initialization phase of `init` (lines 11–217) as a state builder:
`w`/`h` are `canvas.width`/`canvas.height`.  `aspect` is
`Math.abs(canvas.width / canvas.height)` (line 16) and the projection
matrix is `mat4.perspective(_, 2π/5, aspect, 1, 100.0)` (line 18).
Handle numbering follows `initCreatedObjects`. -/
def init (w h : ℝ) : RendererState :=
  let aspect := |w / h|
  { aspect := aspect
    projectionMatrix := Mat4.perspective (2 * Real.pi / 5) aspect 1 100
    verticesBuffer := 0
    pipeline := 5
    depthTexture := 6
    uniformBuffer := 8
    cubeTexture := 9
    sampler := 10
    uniformBindGroup := 12
    renderPassDescriptor :=
      { colorAttachment :=
          { attachment := none
            loadValue := { r := 0.5, g := 0.5, b := 0.5, a := 1.0 }
            storeOp := .store }
        depthStencilAttachment :=
          { attachment := 7
            depthLoadValue := 1.0
            depthStoreOp := .store
            stencilLoadValue := 0
            stencilStoreOp := .store } }
    uniformContents := Mat4.zero }

/-- Commands recorded into the render pass between `beginRenderPass` and
`endPass` (lines 234–238). -/
inductive PassCmd where
  | setPipeline (pipeline : Nat)
  | setBindGroup (index : Nat) (group : Nat)
  | setVertexBuffer (slot : Nat) (buffer : Nat)
  | draw (vertexCount instanceCount firstVertex firstInstance : Nat)
  | drawIndexed (indexCount instanceCount firstIndex baseVertex
      firstInstance : Nat)
deriving DecidableEq

/-- Everything one invocation of `frame` (lines 219–240) emits towards
the device: the single `writeBuffer` call (destination handle, byte
offset, byte size, value written), the render-pass descriptor passed to
`beginRenderPass`, the recorded pass commands, the transient objects
created this frame (in creation order), the handles destroyed, and the
number of queue submissions. -/
structure FrameOutput where
  writeDst : Nat
  writeBufferOffset : Nat
  writeSize : Nat
  writeValue : Mat4
  passDescriptor : RenderPassDescriptor
  passCmds : List PassCmd
  createdObjects : List GPUObjectKind
  destroyedObjects : List Nat
  submitCount : Nat

/-- One invocation of `frame` (lines 219–240).  `now` is the wall-clock
read `Date.now() / 1000`; `swapView` is the handle of the view created
from `swapChain.getCurrentTexture()`.  The body:
computes `getTransformationMatrix()`, writes its 64 bytes
(`transformationMatrix.byteLength = 16 × 4`) at offset 0 of the uniform
buffer, reassigns `renderPassDescriptor.colorAttachments[0].attachment`
to the fresh swap-chain view, then records and submits one render pass.
Transient creations, in order: the swap-chain texture view, then the
command encoder. -/
def frame (s : RendererState) (now : ℝ) (swapView : Nat) :
    RendererState × FrameOutput :=
  let transformationMatrix := getTransformationMatrix s.projectionMatrix now
  let rpd :=
    { s.renderPassDescriptor with
      colorAttachment :=
        { s.renderPassDescriptor.colorAttachment with
          attachment := some swapView } }
  ({ s with
     uniformContents := transformationMatrix
     renderPassDescriptor := rpd },
   { writeDst := s.uniformBuffer
     writeBufferOffset := 0
     writeSize := 16 * 4
     writeValue := transformationMatrix
     passDescriptor := rpd
     passCmds :=
       [.setPipeline s.pipeline,
        .setBindGroup 0 s.uniformBindGroup,
        .setVertexBuffer 0 s.verticesBuffer,
        .draw 36 1 0 0]
     createdObjects := [.textureView, .commandEncoder]
     destroyedObjects := []
     submitCount := 1 })

/-! ## Theorems -/

/-- The standard rotation about the Y axis by `rad` radians, written
directly from the spec sentence "a 1-radian rotation about Y"
(column-major; this is `gl-matrix`'s `mat4.fromYRotation`). -/
def rotationY (rad : ℝ) : Mat4 :=
  ⟨Real.cos rad, 0, -Real.sin rad, 0,
   0, 1, 0, 0,
   Real.sin rad, 0, Real.cos rad, 0,
   0, 0, 0, 1⟩

/-- The rotation axis `(sin t, cos t, 0)` always has length 1, so
`mat4.rotate` never takes its degenerate `null` branch. -/
lemma rotate_axis_len (t : ℝ) :
    Real.sqrt (Real.sin t * Real.sin t + Real.cos t * Real.cos t + 0 * 0)
      = 1 := by
  rw [show Real.sin t * Real.sin t + Real.cos t * Real.cos t + 0 * 0
        = Real.sin t ^ 2 + Real.cos t ^ 2 by ring,
     Real.sin_sq_add_cos_sq, Real.sqrt_one]

/-- `mat4.rotate` succeeds on the frame's axis and `viewMatrixAt` is its
result. -/
lemma rotate_viewMatrix (t : ℝ) :
    Mat4.rotate translatedIdentity 1
      (vec3fromValues (Real.sin t) (Real.cos t) 0) = some (viewMatrixAt t) := by
  have hne : Mat4.rotate translatedIdentity 1
      (vec3fromValues (Real.sin t) (Real.cos t) 0) ≠ none := by
    simp only [Mat4.rotate, vec3fromValues, rotate_axis_len t]
    rw [if_neg]
    · simp
    · norm_num [Mat4.EPSILON]
  cases hr : Mat4.rotate translatedIdentity 1
      (vec3fromValues (Real.sin t) (Real.cos t) 0) with
  | none => exact absurd hr hne
  | some m => simp [viewMatrixAt, hr]

/-- At `t = 0` the axis is `(0, 1, 0)` and the view matrix is the
translated identity post-multiplied by a 1-radian Y rotation. -/
lemma viewMatrixAt_zero :
    viewMatrixAt 0 = Mat4.multiply translatedIdentity (rotationY 1) := by
  have h := rotate_viewMatrix 0
  rw [Real.sin_zero, Real.cos_zero] at h
  have hcalc : Mat4.rotate translatedIdentity 1 (vec3fromValues 0 1 0)
      = some (Mat4.multiply translatedIdentity (rotationY 1)) := by
    simp only [Mat4.rotate, vec3fromValues]
    rw [show (0 * 0 + 1 * 1 + 0 * 0 : ℝ) = 1 by norm_num, Real.sqrt_one]
    rw [if_neg (by norm_num [Mat4.EPSILON])]
    congr 1
    ext <;>
      simp [Mat4.multiply, translatedIdentity, Mat4.translate, Mat4.create,
        rotationY]
  rw [hcalc] at h
  exact (Option.some_injective _ h).symm

/-- C1: For every frame invocation, the matrix written to the uniform
buffer equals projection × view; the view matrix is the identity
translated by `(0,0,−4)` and then rotated by 1 radian around
`(sin t, cos t, 0)` (the `mat4.rotate` call always succeeds since that
axis has unit length); and at `t = 0` the view matrix is
translate`(0,0,−4)` followed by a 1-radian rotation about Y. -/
theorem frame_writes_projection_times_view
    (s : RendererState) (now : ℝ) (swapView : Nat) :
    (frame s now swapView).2.writeValue
        = Mat4.multiply s.projectionMatrix (viewMatrixAt now) ∧
    Mat4.rotate translatedIdentity 1
        (vec3fromValues (Real.sin now) (Real.cos now) 0)
      = some (viewMatrixAt now) ∧
    viewMatrixAt 0 = Mat4.multiply translatedIdentity (rotationY 1) :=
  ⟨rfl, rotate_viewMatrix now, viewMatrixAt_zero⟩

/-- States of the renderer that the program can actually reach: the state
`init` returns, and anything a chain of `frame` invocations produces from
it. -/
inductive Reachable : RendererState → Prop where
  | base (w h : ℝ) : Reachable (init w h)
  | step (s : RendererState) (now : ℝ) (swapView : Nat) :
      Reachable s → Reachable (frame s now swapView).1

/-- In every reachable state the projection matrix is the perspective
matrix built at line 18 from the state's aspect ratio, with near/far
planes 1 and 100. -/
lemma reachable_projection (s : RendererState) (hs : Reachable s) :
    s.projectionMatrix
      = Mat4.perspective (2 * Real.pi / 5) s.aspect 1 100 := by
  induction hs with
  | base w h => rfl
  | step s now swapView _ ih => exact ih

/-- In every reachable state the render-pass clear values are the ones
set at lines 134–150: mid-gray colour, depth 1, stencil 0, both stored. -/
lemma reachable_clear_values (s : RendererState) (hs : Reachable s) :
    s.renderPassDescriptor.colorAttachment.loadValue
        = ⟨0.5, 0.5, 0.5, 1.0⟩ ∧
    s.renderPassDescriptor.colorAttachment.storeOp = .store ∧
    s.renderPassDescriptor.depthStencilAttachment
        = { attachment := 7, depthLoadValue := 1.0, depthStoreOp := .store
            stencilLoadValue := 0, stencilStoreOp := .store } := by
  induction hs with
  | base w h => exact ⟨rfl, rfl, rfl⟩
  | step s now swapView _ ih => exact ih

/-- C2: the vertex buffer holds 36 interleaved vertices of 24 bytes each
(4×float32 position, 2×float32 UV), 864 bytes in total, and the
pipeline's sole vertex-buffer layout uses that stride with the position
attribute at offset 0 and the UV attribute at offset 16. -/
theorem vertex_buffer_layout_correct :
    verticesBufferSize = cubeVertexCount * cubeVertexSize ∧
    cubeVertexSize = 4 * 4 + 2 * 4 ∧
    verticesBufferSize = 864 ∧
    pipelineState.vertexBuffers
      = [{ arrayStride := cubeVertexSize
           attributes :=
             [{ shaderLocation := 0, offset := 0, format := .float32x4 },
              { shaderLocation := 1, offset := 16, format := .float32x2 }] }] :=
  ⟨rfl, rfl, rfl, rfl⟩

/-- C3: the uniform buffer is created 64 bytes large (`4 * 16`), and
every frame writes exactly the 64 bytes of the fresh matrix
(`byteLength = 16 × 4`) at offset 0 of that buffer, after which the
buffer's whole contents equal the written matrix. -/
theorem uniform_buffer_fully_rewritten
    (s : RendererState) (now : ℝ) (swapView : Nat) :
    uniformBufferSize = 64 ∧
    (frame s now swapView).2.writeDst = s.uniformBuffer ∧
    (frame s now swapView).2.writeBufferOffset = 0 ∧
    (frame s now swapView).2.writeSize = 16 * 4 ∧
    (frame s now swapView).2.writeSize = uniformBufferSize ∧
    (frame s now swapView).1.uniformContents
      = (frame s now swapView).2.writeValue :=
  ⟨rfl, rfl, rfl, rfl, rfl, rfl⟩

/-- C4: in both dialects the vertex shader emits clip-space position
`modelViewProjectionMatrix * position`, passes the UV through, and
computes the pseudo-colour `0.5 * (position + 1)` componentwise; and the
fragment shader returns the sampled texel multiplied componentwise by the
interpolated pseudo-colour. -/
theorem shader_io_correct (m : Mat4) (position : Vec4) (uv : Vec2)
    (sample : Vec2 → Vec4) (fragUV : Vec2) (fragPosition : Vec4) :
    (glslVertexMain m position uv).position = Mat4.mulVec m position ∧
    (glslVertexMain m position uv).fragUV = uv ∧
    (glslVertexMain m position uv).fragPosition
      = ⟨0.5 * (position.x + 1), 0.5 * (position.y + 1),
         0.5 * (position.z + 1), 0.5 * (position.w + 1)⟩ ∧
    (wgslVertexMain m position uv).position = Mat4.mulVec m position ∧
    (wgslVertexMain m position uv).fragUV = uv ∧
    (wgslVertexMain m position uv).fragPosition
      = ⟨0.5 * (position.x + 1), 0.5 * (position.y + 1),
         0.5 * (position.z + 1), 0.5 * (position.w + 1)⟩ ∧
    glslFragmentMain sample fragUV fragPosition
      = ⟨(sample fragUV).x * fragPosition.x, (sample fragUV).y * fragPosition.y,
         (sample fragUV).z * fragPosition.z,
         (sample fragUV).w * fragPosition.w⟩ ∧
    wgslFragmentMain sample fragUV fragPosition
      = ⟨(sample fragUV).x * fragPosition.x, (sample fragUV).y * fragPosition.y,
         (sample fragUV).z * fragPosition.z,
         (sample fragUV).w * fragPosition.w⟩ := by
  refine ⟨rfl, rfl, ?_, rfl, rfl, ?_, rfl, rfl⟩ <;>
    · simp [glslVertexMain, wgslVertexMain, Vec4.smul, Vec4.add, vec4splat]
      exact Or.inl (by norm_num)

/-- C5: the GLSL and WGSL shader pairs are extensionally equal: on any
matrix, position, UV and sampling function they produce the same vertex
outputs and the same fragment colour. -/
theorem shader_dialects_equivalent (m : Mat4) (position : Vec4) (uv : Vec2)
    (sample : Vec2 → Vec4) (fragUV : Vec2) (fragPosition : Vec4) :
    glslVertexMain m position uv = wgslVertexMain m position uv ∧
    glslFragmentMain sample fragUV fragPosition
      = wgslFragmentMain sample fragUV fragPosition :=
  ⟨by simp [glslVertexMain, wgslVertexMain, vec4splat], rfl⟩

/-- C6: at initialization the projection matrix is the perspective matrix
for aspect ratio `w / h` with near plane 1 and far plane 100, and it is
never changed afterwards: every reachable state still carries the
perspective matrix of its aspect, and a frame invocation leaves it
untouched. -/
theorem projection_fixed_at_init (w h : ℝ) (hw : 0 ≤ w) (hh : 0 < h) :
    (init w h).aspect = w / h ∧
    (init w h).projectionMatrix
      = Mat4.perspective (2 * Real.pi / 5) (w / h) 1 100 ∧
    (∀ s, Reachable s →
      s.projectionMatrix
          = Mat4.perspective (2 * Real.pi / 5) s.aspect 1 100) ∧
    ∀ s now swapView,
      (frame s now swapView).1.projectionMatrix = s.projectionMatrix := by
  have habs : |w / h| = w / h := abs_of_nonneg (div_nonneg hw hh.le)
  refine ⟨?_, ?_, fun s hs => reachable_projection s hs, fun _ _ _ => rfl⟩
  · simpa [init] using habs
  · simp [init, habs]

/-- Concrete instantiation of `projection_fixed_at_init` at a 16×9
surface. -/
theorem projection_fixed_at_init_witness :
    (0 : ℝ) ≤ 16 ∧ (0 : ℝ) < 9 ∧
    ((init 16 9).aspect = 16 / 9 ∧
     (init 16 9).projectionMatrix
       = Mat4.perspective (2 * Real.pi / 5) (16 / 9) 1 100 ∧
     (∀ s, Reachable s →
       s.projectionMatrix
           = Mat4.perspective (2 * Real.pi / 5) s.aspect 1 100) ∧
     ∀ s now swapView,
       (frame s now swapView).1.projectionMatrix = s.projectionMatrix) :=
  ⟨by norm_num, by norm_num,
   projection_fixed_at_init 16 9 (by norm_num) (by norm_num)⟩

/-- Recognises draw commands (indexed or not) in a recorded pass. -/
def PassCmd.isDraw : PassCmd → Bool
  | .draw _ _ _ _ => true
  | .drawIndexed _ _ _ _ _ => true
  | _ => false

/-- C7: in any reachable state a frame records exactly one render pass
whose commands are: bind the pipeline, bind the single bind group at
index 0, bind the vertex buffer at slot 0, and one non-indexed draw of 36
vertices and 1 instance; the pass clears colour to `(0.5, 0.5, 0.5, 1)`,
depth to 1 and stencil to 0, and stores the colour result (the omitted
`storeOp` defaults to `'store'`) as well as the depth and stencil
results; the pipeline fixes back-face culling, triangle-list topology,
depth compare `less` and depth writes on; and exactly one command buffer
is submitted. -/
theorem render_pass_shape (s : RendererState) (hs : Reachable s)
    (now : ℝ) (swapView : Nat) :
    (frame s now swapView).2.passCmds
      = [.setPipeline s.pipeline,
         .setBindGroup 0 s.uniformBindGroup,
         .setVertexBuffer 0 s.verticesBuffer,
         .draw 36 1 0 0] ∧
    ((frame s now swapView).2.passCmds.filter PassCmd.isDraw)
      = [.draw 36 1 0 0] ∧
    (frame s now swapView).2.passDescriptor.colorAttachment.loadValue
      = ⟨0.5, 0.5, 0.5, 1.0⟩ ∧
    (frame s now swapView).2.passDescriptor.colorAttachment.storeOp
      = .store ∧
    (frame s now swapView).2.passDescriptor.depthStencilAttachment.depthLoadValue
      = 1.0 ∧
    (frame s now swapView).2.passDescriptor.depthStencilAttachment.stencilLoadValue
      = 0 ∧
    (frame s now swapView).2.passDescriptor.depthStencilAttachment.depthStoreOp
      = .store ∧
    (frame s now swapView).2.passDescriptor.depthStencilAttachment.stencilStoreOp
      = .store ∧
    pipelineState.cullMode = .back ∧
    pipelineState.topology = .triangleList ∧
    pipelineState.depthCompare = .less ∧
    pipelineState.depthWriteEnabled = true ∧
    (frame s now swapView).2.submitCount = 1 := by
  obtain ⟨hc, hcs, hd⟩ := reachable_clear_values s hs
  have hds : (frame s now swapView).2.passDescriptor.depthStencilAttachment
      = s.renderPassDescriptor.depthStencilAttachment := rfl
  have hco : (frame s now swapView).2.passDescriptor.colorAttachment.storeOp
      = s.renderPassDescriptor.colorAttachment.storeOp := rfl
  exact ⟨rfl, rfl, hc, by rw [hco, hcs],
    by rw [hds, hd], by rw [hds, hd], by rw [hds, hd], by rw [hds, hd],
    rfl, rfl, rfl, rfl, rfl⟩

/-- Concrete instantiation of `render_pass_shape` at the initial state of
a 1×1 surface, at time 0, with swap-chain view handle 13. -/
theorem render_pass_shape_witness :
    (frame (init 1 1) 0 13).2.passCmds
      = [.setPipeline (init 1 1).pipeline,
         .setBindGroup 0 (init 1 1).uniformBindGroup,
         .setVertexBuffer 0 (init 1 1).verticesBuffer,
         .draw 36 1 0 0] ∧
    ((frame (init 1 1) 0 13).2.passCmds.filter PassCmd.isDraw)
      = [.draw 36 1 0 0] ∧
    (frame (init 1 1) 0 13).2.passDescriptor.colorAttachment.loadValue
      = ⟨0.5, 0.5, 0.5, 1.0⟩ ∧
    (frame (init 1 1) 0 13).2.passDescriptor.colorAttachment.storeOp
      = .store ∧
    (frame (init 1 1) 0 13).2.passDescriptor.depthStencilAttachment.depthLoadValue
      = 1.0 ∧
    (frame (init 1 1) 0 13).2.passDescriptor.depthStencilAttachment.stencilLoadValue
      = 0 ∧
    (frame (init 1 1) 0 13).2.passDescriptor.depthStencilAttachment.depthStoreOp
      = .store ∧
    (frame (init 1 1) 0 13).2.passDescriptor.depthStencilAttachment.stencilStoreOp
      = .store ∧
    pipelineState.cullMode = .back ∧
    pipelineState.topology = .triangleList ∧
    pipelineState.depthCompare = .less ∧
    pipelineState.depthWriteEnabled = true ∧
    (frame (init 1 1) 0 13).2.submitCount = 1 :=
  render_pass_shape (init 1 1) (Reachable.base 1 1) 0 13

/-- C8: the matrix a frame writes to the uniform buffer is a pure
function of the wall-clock time and the aspect ratio: two frame
invocations in any two reachable states with equal aspect, at the same
time, write the same matrix, whatever the swap-chain views are. -/
theorem mvp_deterministic (s1 s2 : RendererState)
    (h1 : Reachable s1) (h2 : Reachable s2)
    (hasp : s1.aspect = s2.aspect) (now : ℝ) (v1 v2 : Nat) :
    (frame s1 now v1).2.writeValue = (frame s2 now v2).2.writeValue := by
  show getTransformationMatrix s1.projectionMatrix now
      = getTransformationMatrix s2.projectionMatrix now
  rw [reachable_projection s1 h1, reachable_projection s2 h2, hasp]

/-- Concrete instantiation of `mvp_deterministic`: a 4×3 surface freshly
initialised, and an 8×6 surface after one frame, agree on the matrix
written at time 0. -/
theorem mvp_deterministic_witness :
    (init 4 3).aspect = (frame (init 8 6) 0 13).1.aspect ∧
    (frame (init 4 3) 0 20).2.writeValue
      = (frame (frame (init 8 6) 0 13).1 0 21).2.writeValue := by
  have hasp : (init 4 3).aspect = (frame (init 8 6) 0 13).1.aspect := by
    show |(4 : ℝ) / 3| = |(8 : ℝ) / 6|
    norm_num
  exact ⟨hasp,
    mvp_deterministic (init 4 3) (frame (init 8 6) 0 13).1
      (Reachable.base 4 3)
      (Reachable.step (init 8 6) 0 13 (Reachable.base 8 6)) hasp 0 20 21⟩

/-- C9: each persistent GPU object is created exactly once, during
initialization (two buffers, two textures, one sampler, one pipeline, one
bind group, and no command encoder); a frame creates only the transient
swap-chain texture view and command encoder, destroys nothing, and hands
every persistent handle on unchanged. -/
theorem objects_created_once (s : RendererState) (now : ℝ) (swapView : Nat) :
    initCreatedObjects.count .buffer = 2 ∧
    initCreatedObjects.count .texture = 2 ∧
    initCreatedObjects.count .sampler = 1 ∧
    initCreatedObjects.count .renderPipeline = 1 ∧
    initCreatedObjects.count .bindGroup = 1 ∧
    initCreatedObjects.count .commandEncoder = 0 ∧
    (frame s now swapView).2.createdObjects
      = [.textureView, .commandEncoder] ∧
    (frame s now swapView).2.destroyedObjects = [] ∧
    (frame s now swapView).1.verticesBuffer = s.verticesBuffer ∧
    (frame s now swapView).1.uniformBuffer = s.uniformBuffer ∧
    (frame s now swapView).1.depthTexture = s.depthTexture ∧
    (frame s now swapView).1.cubeTexture = s.cubeTexture ∧
    (frame s now swapView).1.sampler = s.sampler ∧
    (frame s now swapView).1.pipeline = s.pipeline ∧
    (frame s now swapView).1.uniformBindGroup = s.uniformBindGroup := by
  refine ⟨?_, ?_, ?_, ?_, ?_, ?_, rfl, rfl, rfl, rfl, rfl, rfl, rfl, rfl, rfl⟩
  all_goals decide

/-- C10: besides the uniform-buffer contents, the only field a frame
mutates is the colour attachment of the render-pass descriptor, which is
set to the fresh swap-chain view: the post-state is exactly the pre-state
with the new uniform contents and the reassigned colour attachment, and
in particular the depth-stencil attachment, the clear values, the aspect
and the projection matrix survive unchanged. -/
theorem frame_mutates_only_color_attachment
    (s : RendererState) (now : ℝ) (swapView : Nat) :
    (frame s now swapView).1
      = { s with
          uniformContents := getTransformationMatrix s.projectionMatrix now
          renderPassDescriptor :=
            { s.renderPassDescriptor with
              colorAttachment :=
                { s.renderPassDescriptor.colorAttachment with
                  attachment := some swapView } } } ∧
    (frame s now swapView).1.renderPassDescriptor.colorAttachment.attachment
      = some swapView ∧
    (frame s now swapView).1.renderPassDescriptor.colorAttachment.loadValue
      = s.renderPassDescriptor.colorAttachment.loadValue ∧
    (frame s now swapView).1.renderPassDescriptor.depthStencilAttachment
      = s.renderPassDescriptor.depthStencilAttachment ∧
    (frame s now swapView).1.projectionMatrix = s.projectionMatrix ∧
    (frame s now swapView).1.aspect = s.aspect :=
  ⟨rfl, rfl, rfl, rfl, rfl, rfl⟩
